import Mathlib

/-!
Shallow embedding of the recording-session controller of
src/frontend/src/app/page.tsx (the `Home` component, lines 287-487).

The component is single-threaded and event-driven: every protocol event
(socket open / message / close / error), every capture callback
(mediaRecorder.ondataavailable), every user action (stop, reset) and the
resolution of the in-flight report fetch runs to completion on one event
queue.  We model one session (the scope opened by a successful
`startRecording`: microphone acquired, socket constructed) as a state
record plus a step function over an inductive event type; a session trace
is a `List Event` folded from the initial state.

Modelling notes, each tied to a line of the source:
* `sessionIdRef` / `mediaRecorderRef` / the socket are refs; under the
  single-threaded model they are plain fields.
* `JSON.parse` (line 365) throws on malformed input; the handler has no
  try/catch, so the exception is uncaught: `handleMessage` returns
  `Except Unit ClientState`, with `.error` for the throw.  No state is
  mutated before the throwing statement, so an error leaves the state
  unchanged; an uncaught exception in a browser event handler is not
  fatal, later events are still delivered, hence `stepEvent` keeps the
  prior state on `.error`.  A JSON `null` body (property access throws)
  is folded into the same `malformed` case.
* JavaScript truthiness: `if (data.session_id)` (line 366) and
  `if (sessionIdRef.current)` (line 397) treat an absent field and the
  empty string alike as false; `truthy` captures this.
* `fetchAnalysis` (line 330) runs synchronously up to its first await
  (setting state `Analyzing` and its status), and its continuation — the
  code after the awaits — runs later as its own event (`fetchResult`).
* The report body is opaque to the controller (typed `any`, line 308).
-/

inductive RecordingState
  | Idle
  | Recording
  | Stopped
  | Analyzing
  | Complete
deriving DecidableEq, Repr

/-- `WebSocket.readyState`. -/
inductive SocketState
  | CONNECTING
  | OPEN
  | CLOSING
  | CLOSED
deriving DecidableEq, Repr

/-- A parsed inbound JSON object, with the three fields the handler reads.
`none` is an absent field; non-object JSON scalars (numbers, strings,
booleans) behave as objects with all three fields absent. -/
structure JsonMsg where
  session_id : Option String
  type : Option String
  words : Option (List String)
deriving DecidableEq, Repr

/-- A raw inbound frame: either it parses to a `JsonMsg`, or `JSON.parse`
(or the subsequent property access, for JSON `null`) throws on it. -/
inductive RawInbound
  | msg (m : JsonMsg)
  | malformed
deriving DecidableEq, Repr

/-- An entry of the `realtimeFeedback` queue (interface FeedbackMessage,
lines 300-303); `id` is the `Date.now()` value at creation. -/
structure FeedbackMessage where
  id : Nat
  text : String
deriving DecidableEq, Repr

/-- The analysis response body, opaque to the controller (stored as `any`). -/
structure Report where
  payload : String
deriving DecidableEq, Repr

/-- The mutable state of one session, plus observables of its environment
interactions.  `recorder` is `mediaRecorderRef`: `none` before a recorder
exists, `some true` while its state is `recording`, `some false` once
`inactive`.  `sentChunks` counts `socket.send` calls; `fetches` lists the
ids passed to `fetchAnalysis`, in order; `closeSignals` counts client-side
`socket.close()` calls; `tracksStopped` records whether the microphone
stream's tracks have been stopped; `recordersStarted` counts MediaRecorder
objects created and started. -/
structure ClientState where
  recordingState : RecordingState
  statusMessage : String
  analysisReport : Option Report
  realtimeFeedback : List FeedbackMessage
  sessionId : Option String
  recorder : Option Bool
  socketState : SocketState
  tracksStopped : Bool
  sentChunks : Nat
  fetches : List String
  closeSignals : Nat
  recordersStarted : Nat
deriving DecidableEq, Repr

/-- Events delivered to the session's handlers.  `inbound` carries the
`Date.now()` at delivery (used only for feedback ids); `capture` is one
`ondataavailable` callback with its blob size; `fetchResult` is the
resolution of the report fetch (`ok` is `response.ok`). -/
inductive Event
  | sockOpen
  | inbound (now : Nat) (raw : RawInbound)
  | capture (size : Nat)
  | userStop
  | sockClose
  | sockError
  | reset
  | fetchResult (ok : Bool) (r : Report)
deriving DecidableEq, Repr

/-- JavaScript truthiness of an optional string field: absent and `""`
are falsy. -/
def truthy : Option String → Bool
  | none => false
  | some s => !(s == "")

/-- The text built at line 391. -/
def fillerText (ws : List String) : String :=
  "Filler word detected: \"" ++ String.intercalate ", " ws ++ "\""

/-- The `socket.onmessage` handler body (lines 364-393).  `.error ()` is
an uncaught exception: `JSON.parse` throwing on a malformed frame, or
`data.words.join` throwing when a FILLER_WORD message has no `words`
array.  In the session-assignment branch a MediaRecorder is created,
its handlers installed, and it is started with a 1000 ms timeslice. -/
def handleMessage (st : ClientState) (now : Nat) (raw : RawInbound) :
    Except Unit ClientState :=
  match raw with
  | .malformed => .error ()
  | .msg m =>
    if truthy m.session_id then
      .ok { st with
        sessionId := m.session_id
        statusMessage := "Session started. Recording..."
        recordingState := .Recording
        recorder := some true
        recordersStarted := st.recordersStarted + 1 }
    else if m.type == some "FILLER_WORD" then
      match m.words with
      | some ws =>
        .ok { st with
          realtimeFeedback := st.realtimeFeedback ++ [⟨now, fillerText ws⟩] }
      | none => .error ()
    else
      .ok st

/-- The `mediaRecorder.onstop` handler (lines 380-387): close the socket
if it is open, stop every track of the microphone stream, then set status
and state. -/
def recorderStopEffects (st : ClientState) : ClientState :=
  let st1 :=
    if st.socketState == .OPEN then
      { st with closeSignals := st.closeSignals + 1, socketState := .CLOSING }
    else st
  { st1 with
    tracksStopped := true
    statusMessage := "Recording stopped. Uploading audio..."
    recordingState := .Stopped }

/-- One event delivered to the session.  Each branch is the corresponding
handler of the source:
* `sockOpen`: lines 360-362.
* `inbound`: `handleMessage`; on an uncaught throw the state is unchanged.
* `capture`: `ondataavailable` (lines 374-378) — the callback exists only
  once a recorder does; it sends iff the blob is non-empty and the socket
  is OPEN.
* `userStop`: `stopRecording` (lines 417-421) — guarded on an actively
  recording recorder; `stop()` makes the recorder inactive and fires
  `onstop`.
* `sockClose`: lines 395-403 — readyState is CLOSED when the handler
  runs; status is set, then a truthy stored id triggers `fetchAnalysis`
  (which immediately sets state `Analyzing` and its status), otherwise
  the failure status and `Idle`.
* `sockError`: lines 405-409.
* `reset`: `resetSession` (lines 423-429).
* `fetchResult`: the continuation of `fetchAnalysis` (lines 334-346),
  applied unconditionally when the response arrives. -/
def stepEvent (st : ClientState) (e : Event) : ClientState :=
  match e with
  | .sockOpen =>
    { st with statusMessage := "Connected. Waiting for session ID..."
              socketState := .OPEN }
  | .inbound now raw =>
    match handleMessage st now raw with
    | .ok st1 => st1
    | .error _ => st
  | .capture size =>
    match st.recorder with
    | none => st
    | some _ =>
      if size > 0 && st.socketState == .OPEN then
        { st with sentChunks := st.sentChunks + 1 }
      else st
  | .userStop =>
    match st.recorder with
    | some true => recorderStopEffects { st with recorder := some false }
    | _ => st
  | .sockClose =>
    let st1 := { st with
      socketState := .CLOSED
      statusMessage := "Upload complete. Preparing analysis..." }
    match st.sessionId with
    | some id =>
      if !(id == "") then
        { st1 with
          fetches := st1.fetches ++ [id]
          recordingState := .Analyzing
          statusMessage := "Analyzing your speech..." }
      else
        { st1 with
          statusMessage := "Could not get session ID. Please try again."
          recordingState := .Idle }
    | none =>
      { st1 with
        statusMessage := "Could not get session ID. Please try again."
        recordingState := .Idle }
  | .sockError =>
    { st with statusMessage := "Connection error. Please try again."
              recordingState := .Idle }
  | .reset =>
    { st with
      recordingState := .Idle
      statusMessage := "Click \"Start Recording\" to begin."
      analysisReport := none
      realtimeFeedback := []
      sessionId := none }
  | .fetchResult ok r =>
    if ok then
      { st with
        analysisReport := some r
        recordingState := .Complete
        statusMessage := "Analysis complete!" }
    else
      { st with
        statusMessage := "Failed to get analysis. Please try again."
        recordingState := .Idle }

/-- The state right after `startRecording` succeeded in acquiring the
microphone and constructed the socket (lines 349-358): the start button is
only rendered in `Idle`; `startRecording` cleared the report, the feedback
queue and the stored id, and set the status after the permission grant. -/
def initState : ClientState where
  recordingState := .Idle
  statusMessage := "Microphone access granted. Connecting to server..."
  analysisReport := none
  realtimeFeedback := []
  sessionId := none
  recorder := none
  socketState := .CONNECTING
  tracksStopped := false
  sentChunks := 0
  fetches := []
  closeSignals := 0
  recordersStarted := 0

def foldEvents (st : ClientState) (es : List Event) : ClientState :=
  es.foldl stepEvent st

def runSession (es : List Event) : ClientState :=
  foldEvents initState es

/-- An inbound message that the handler treats as a session assignment:
its `session_id` field is present and non-empty (JS-truthy). -/
def isAssignment : Event → Bool
  | .inbound _ (.msg m) => truthy m.session_id
  | _ => false

/-- Number of capture callbacks that fire while the connection is in the
open state, regardless of blob size — the count named by the spec's
chunk-accounting sentence.  A callback fires only when a recorder
exists. -/
def captureCallbacksWhileOpen : ClientState → List Event → Nat
  | _, [] => 0
  | st, e :: es =>
    (match e with
     | .capture _ =>
       if st.recorder.isSome && st.socketState == .OPEN then 1 else 0
     | _ => 0) + captureCallbacksWhileOpen (stepEvent st e) es

/-- Number of capture callbacks that fire with non-empty data while the
connection is in the open state — the per-event characterisation of what
the code actually sends. -/
def sentWhileOpenNonEmpty : ClientState → List Event → Nat
  | _, [] => 0
  | st, e :: es =>
    (match e with
     | .capture size =>
       if st.recorder.isSome && (size > 0 && st.socketState == .OPEN)
       then 1 else 0
     | _ => 0) + sentWhileOpenNonEmpty (stepEvent st e) es

/-!
The inline-feedback expiry mechanism (lines 315-328).  The `useEffect`
with dependency `[realtimeFeedback]` re-runs after every change of the
queue: its cleanup clears the previously armed timeout, and if the queue
is non-empty a fresh 5000 ms timeout is armed whose callback removes the
head (`fb.slice(1)`).  So at most one timeout is pending, and its
deadline is 5000 ms after the most recent queue change.  `FbState.timer`
is the deadline of that single pending timeout; times are in
milliseconds.
-/

structure FbState where
  queue : List FeedbackMessage
  timer : Option Nat
deriving DecidableEq, Repr

/-- The effect re-run after a queue change at time `now`: the old timeout
has been cleared; a new one is armed iff the queue is non-empty. -/
def rearmTimer (now : Nat) (q : List FeedbackMessage) : Option Nat :=
  if q.isEmpty then none else some (now + 5000)

def fbInit : FbState where
  queue := []
  timer := none

/-- `addRealtimeFeedback` at time `now` (lines 325-328), followed by the
effect re-run. -/
def fbAdd (now : Nat) (text : String) (s : FbState) : FbState :=
  let q := s.queue ++ [⟨now, text⟩]
  { queue := q, timer := rearmTimer now q }

/-- The armed timeout firing at time `now`: only the pending timeout with
deadline `now` can fire; its callback drops the head of the queue
(`fb.slice(1)`), and the effect re-runs on the changed queue. -/
def fbFire (now : Nat) (s : FbState) : FbState :=
  if s.timer = some now then
    let q := s.queue.drop 1
    { queue := q, timer := rearmTimer now q }
  else s

/-! ### Basic lemmas about event folding -/

theorem foldEvents_nil (st : ClientState) : foldEvents st [] = st := rfl

theorem foldEvents_cons (st : ClientState) (e : Event) (es : List Event) :
    foldEvents st (e :: es) = foldEvents (stepEvent st e) es := rfl

theorem foldEvents_append (st : ClientState) (l1 l2 : List Event) :
    foldEvents st (l1 ++ l2) = foldEvents (foldEvents st l1) l2 := by
  simp [foldEvents, List.foldl_append]

/-- A non-assignment inbound event changes at most the feedback queue:
the malformed and missing-words cases throw before any mutation, the
FILLER_WORD case appends to the queue, and any other shape falls through
to no statement at all. -/
theorem stepEvent_inbound_not_assign (st : ClientState) (now : Nat)
    (raw : RawInbound) (h : isAssignment (Event.inbound now raw) = false) :
    ∃ fb, stepEvent st (Event.inbound now raw) =
      { st with realtimeFeedback := fb } := by
  cases raw with
  | malformed => exact ⟨st.realtimeFeedback, rfl⟩
  | msg m =>
    have ht : truthy m.session_id = false := by simpa [isAssignment] using h
    by_cases hty : (m.type == some "FILLER_WORD") = true
    · cases hw : m.words with
      | none =>
        refine ⟨st.realtimeFeedback, ?_⟩
        simp [stepEvent, handleMessage, ht, hty, hw]
      | some ws =>
        refine ⟨st.realtimeFeedback ++ [⟨now, fillerText ws⟩], ?_⟩
        simp [stepEvent, handleMessage, ht, hty, hw]
    · refine ⟨st.realtimeFeedback, ?_⟩
      simp [stepEvent, handleMessage, ht, Bool.eq_false_iff.mpr hty]

/-- The session-assignment branch of the message handler (lines 366-389):
store the id, set status and state, create and start a recorder. -/
theorem stepEvent_assign (st : ClientState) (now : Nat) (m : JsonMsg)
    (h : truthy m.session_id = true) :
    stepEvent st (Event.inbound now (RawInbound.msg m)) =
      { st with
        sessionId := m.session_id
        statusMessage := "Session started. Recording..."
        recordingState := RecordingState.Recording
        recorder := some true
        recordersStarted := st.recordersStarted + 1 } := by
  simp [stepEvent, handleMessage, h]

/-- Any event carrying a (truthy) session assignment leaves the state in
`Recording`. -/
theorem recording_after_assign (st : ClientState) (e : Event)
    (he : isAssignment e = true) :
    (stepEvent st e).recordingState = RecordingState.Recording := by
  cases e with
  | inbound now raw =>
    cases raw with
    | malformed => simp [isAssignment] at he
    | msg m =>
      have ht : truthy m.session_id = true := by simpa [isAssignment] using he
      rw [stepEvent_assign st now m ht]
  | sockOpen => simp [isAssignment] at he
  | capture size => simp [isAssignment] at he
  | userStop => simp [isAssignment] at he
  | sockClose => simp [isAssignment] at he
  | sockError => simp [isAssignment] at he
  | reset => simp [isAssignment] at he
  | fetchResult ok r => simp [isAssignment] at he

/-- Invariant holding while no session-assignment message has been
received: no stored id, no recorder (hence no chunk ever sent), no fetch
issued, and the state has never been `Recording`. -/
def NoSessionYet (st : ClientState) : Prop :=
  st.sessionId = none ∧ st.recorder = none ∧ st.sentChunks = 0 ∧
    st.fetches = [] ∧ st.recordersStarted = 0 ∧
    st.recordingState ≠ RecordingState.Recording

theorem init_noSessionYet : NoSessionYet initState :=
  ⟨rfl, rfl, rfl, rfl, rfl, by decide⟩

theorem noSessionYet_step (st : ClientState) (e : Event)
    (hs : NoSessionYet st) (he : isAssignment e = false) :
    NoSessionYet (stepEvent st e) := by
  obtain ⟨h1, h2, h3, h4, h5, h6⟩ := hs
  cases e with
  | sockOpen => exact ⟨h1, h2, h3, h4, h5, h6⟩
  | inbound now raw =>
    obtain ⟨fb, hfb⟩ := stepEvent_inbound_not_assign st now raw he
    rw [hfb]
    exact ⟨h1, h2, h3, h4, h5, h6⟩
  | capture size =>
    rw [show stepEvent st (Event.capture size) = st by simp [stepEvent, h2]]
    exact ⟨h1, h2, h3, h4, h5, h6⟩
  | userStop =>
    rw [show stepEvent st Event.userStop = st by simp [stepEvent, h2]]
    exact ⟨h1, h2, h3, h4, h5, h6⟩
  | sockClose =>
    rw [show stepEvent st Event.sockClose =
        { st with
          socketState := SocketState.CLOSED
          statusMessage := "Could not get session ID. Please try again."
          recordingState := RecordingState.Idle } by simp [stepEvent, h1]]
    exact ⟨h1, h2, h3, h4, h5, by simp⟩
  | sockError => exact ⟨h1, h2, h3, h4, h5, by simp [stepEvent]⟩
  | reset => exact ⟨rfl, h2, h3, h4, h5, by simp [stepEvent]⟩
  | fetchResult ok r =>
    cases ok with
    | true => exact ⟨h1, h2, h3, h4, h5, by simp [stepEvent]⟩
    | false => exact ⟨h1, h2, h3, h4, h5, by simp [stepEvent]⟩

/-- Only the `socket.onclose` handler calls `fetchAnalysis`. -/
theorem fetches_step (st : ClientState) (e : Event) (h : e ≠ Event.sockClose) :
    (stepEvent st e).fetches = st.fetches := by
  cases e with
  | sockClose => exact absurd rfl h
  | inbound now raw =>
    by_cases ha : isAssignment (Event.inbound now raw) = true
    · cases raw with
      | malformed => simp [isAssignment] at ha
      | msg m =>
        rw [stepEvent_assign st now m (by simpa [isAssignment] using ha)]
    · obtain ⟨fb, hfb⟩ := stepEvent_inbound_not_assign st now raw
        (Bool.eq_false_iff.mpr ha)
      rw [hfb]
  | capture size =>
    cases hr : st.recorder with
    | none => simp [stepEvent, hr]
    | some b =>
      simp only [stepEvent, hr]
      split <;> rfl
  | userStop =>
    cases hr : st.recorder with
    | none => simp [stepEvent, hr]
    | some b =>
      cases b with
      | false => simp [stepEvent, hr]
      | true =>
        simp only [stepEvent, hr, recorderStopEffects]
        split <;> rfl
  | fetchResult ok r => cases ok <;> simp [stepEvent]
  | sockOpen => rfl
  | sockError => rfl
  | reset => rfl

theorem fetches_fold (st : ClientState) (es : List Event)
    (h : Event.sockClose ∉ es) :
    (foldEvents st es).fetches = st.fetches := by
  induction es generalizing st with
  | nil => rfl
  | cons e es ih =>
    rw [foldEvents_cons, ih (stepEvent st e) (fun hc => h (by simp [hc])),
      fetches_step st e (fun hc => h (by simp [hc]))]

/-- The `socket.onclose` handler with a truthy stored id issues exactly
one `fetchAnalysis` call, keyed by that id. -/
theorem close_step_with_id (st : ClientState) (id : String)
    (h : st.sessionId = some id) (hne : id ≠ "") :
    (stepEvent st Event.sockClose).fetches = st.fetches ++ [id] ∧
    (stepEvent st Event.sockClose).recordingState = RecordingState.Analyzing ∧
    (stepEvent st Event.sockClose).statusMessage =
      "Analyzing your speech..." := by
  have hb : (id == "") = false := by
    simpa using hne
  simp [stepEvent, h, hb]

/-- Events other than a session assignment or a reset leave the stored id
and the count of started recorders unchanged. -/
theorem sid_step (st : ClientState) (e : Event)
    (h1 : isAssignment e = false) (h2 : e ≠ Event.reset) :
    (stepEvent st e).sessionId = st.sessionId ∧
    (stepEvent st e).recordersStarted = st.recordersStarted := by
  cases e with
  | reset => exact absurd rfl h2
  | inbound now raw =>
    obtain ⟨fb, hfb⟩ := stepEvent_inbound_not_assign st now raw h1
    rw [hfb]
    exact ⟨rfl, rfl⟩
  | capture size =>
    cases hr : st.recorder with
    | none => simp [stepEvent, hr]
    | some b =>
      simp only [stepEvent, hr]
      constructor <;> (split <;> rfl)
  | userStop =>
    cases hr : st.recorder with
    | none => simp [stepEvent, hr]
    | some b =>
      cases b with
      | false => simp [stepEvent, hr]
      | true =>
        simp only [stepEvent, hr, recorderStopEffects]
        constructor <;> (split <;> rfl)
  | sockClose =>
    cases hs : st.sessionId with
    | none => simp [stepEvent, hs]
    | some id =>
      simp only [stepEvent, hs]
      constructor <;> (split <;> rfl)
  | fetchResult ok r => cases ok <;> simp [stepEvent]
  | sockOpen => exact ⟨rfl, rfl⟩
  | sockError => exact ⟨rfl, rfl⟩

theorem sid_fold (st : ClientState) (es : List Event)
    (h1 : ∀ e ∈ es, isAssignment e = false) (h2 : Event.reset ∉ es) :
    (foldEvents st es).sessionId = st.sessionId ∧
    (foldEvents st es).recordersStarted = st.recordersStarted := by
  induction es generalizing st with
  | nil => exact ⟨rfl, rfl⟩
  | cons e es ih =>
    rw [foldEvents_cons]
    have hstep := sid_step st e (h1 e (by simp)) (fun hc => h2 (by simp [hc]))
    have hrest := ih (stepEvent st e) (fun x hx => h1 x (by simp [hx]))
      (fun hc => h2 (by simp [hc]))
    exact ⟨hrest.1.trans hstep.1, hrest.2.trans hstep.2⟩

/-- The number of chunks the code sends at one event: one exactly when the
event is a capture callback (a recorder exists) whose blob is non-empty
while the socket is OPEN. -/
theorem sent_step (st : ClientState) (e : Event) :
    (stepEvent st e).sentChunks =
      st.sentChunks +
        (match e with
         | Event.capture size =>
           if st.recorder.isSome && (size > 0 && st.socketState == SocketState.OPEN)
           then 1 else 0
         | _ => 0) := by
  cases e with
  | capture size =>
    cases hr : st.recorder with
    | none => simp [stepEvent, hr]
    | some b =>
      simp only [stepEvent, hr, Option.isSome, Bool.true_and]
      split <;> simp_all
  | inbound now raw =>
    by_cases ha : isAssignment (Event.inbound now raw) = true
    · cases raw with
      | malformed => simp [isAssignment] at ha
      | msg m =>
        rw [stepEvent_assign st now m (by simpa [isAssignment] using ha)]
        exact rfl
    · obtain ⟨fb, hfb⟩ := stepEvent_inbound_not_assign st now raw
        (Bool.eq_false_iff.mpr ha)
      rw [hfb]
      exact rfl
  | userStop =>
    cases hr : st.recorder with
    | none => simp [stepEvent, hr]
    | some b =>
      cases b with
      | false => simp [stepEvent, hr]
      | true =>
        simp only [stepEvent, hr, recorderStopEffects]
        split <;> rfl
  | sockClose =>
    cases hs : st.sessionId with
    | none => simp [stepEvent, hs]
    | some id =>
      simp only [stepEvent, hs]
      split <;> rfl
  | fetchResult ok r => cases ok <;> simp [stepEvent]
  | sockOpen => rfl
  | sockError => rfl
  | reset => rfl

theorem noSessionYet_fold (st : ClientState) (es : List Event)
    (hs : NoSessionYet st) (h : ∀ e ∈ es, isAssignment e = false) :
    NoSessionYet (foldEvents st es) := by
  induction es generalizing st with
  | nil => exact hs
  | cons e es ih =>
    rw [foldEvents_cons]
    exact ih (stepEvent st e)
      (noSessionYet_step st e hs (h e (by simp)))
      (fun x hx => h x (by simp [hx]))

/-- The chunk counter of the code coincides, over any trace, with the
per-event count of non-empty capture callbacks fired while the socket is
OPEN.  In particular a callback fired while the socket is not open
contributes nothing, at its own event and at every later one: dropped
chunks are not queued. -/
theorem sentChunks_eq_spec (st : ClientState) (es : List Event) :
    (foldEvents st es).sentChunks =
      st.sentChunks + sentWhileOpenNonEmpty st es := by
  induction es generalizing st with
  | nil => rfl
  | cons e es ih =>
    rw [foldEvents_cons, ih (stepEvent st e), sent_step st e]
    have hunfold : sentWhileOpenNonEmpty st (e :: es) =
        (match e with
         | Event.capture size =>
           if st.recorder.isSome &&
               (size > 0 && st.socketState == SocketState.OPEN)
           then 1 else 0
         | _ => 0) + sentWhileOpenNonEmpty (stepEvent st e) es := rfl
    rw [hunfold]
    omega

/-! ### Claims -/

/-- C1: for every event trace of a session, the controller's state
becomes `Recording` (at some prefix) if and only if an inbound message
carrying a (truthy) session identifier occurs in the trace, and along any
prefix containing no such message not a single audio chunk has been sent
(the recorder producing chunks exists only after the session-assignment
branch ran). -/
theorem C1_recording_iff_assignment (es : List Event) :
    ((∃ p, p <+: es ∧
        (runSession p).recordingState = RecordingState.Recording) ↔
      ∃ e ∈ es, isAssignment e = true) ∧
    (∀ p, p <+: es → (∀ e ∈ p, isAssignment e = false) →
      (runSession p).sentChunks = 0) := by
  constructor
  · constructor
    · rintro ⟨p, hp, hrec⟩
      by_contra hno
      push_neg at hno
      have hall : ∀ e ∈ p, isAssignment e = false := fun e he =>
        Bool.eq_false_iff.mpr (hno e (hp.subset he))
      exact (noSessionYet_fold initState p init_noSessionYet hall).2.2.2.2.2
        hrec
    · rintro ⟨e, he, hassign⟩
      obtain ⟨l1, l2, rfl⟩ := List.append_of_mem he
      refine ⟨l1 ++ [e], ⟨l2, by simp⟩, ?_⟩
      show (foldEvents initState (l1 ++ [e])).recordingState = _
      rw [foldEvents_append]
      exact recording_after_assign _ e hassign
  · intro p _ hnone
    exact (noSessionYet_fold initState p init_noSessionYet hnone).2.2.1

theorem C1_recording_iff_assignment_witness :
    (runSession [Event.sockOpen]).sentChunks = 0 ∧
    (∃ p, p <+: [Event.inbound 0 (RawInbound.msg ⟨some "abc", none, none⟩)] ∧
      (runSession p).recordingState = RecordingState.Recording) := by
  refine ⟨?_, ?_⟩
  · exact (C1_recording_iff_assignment [Event.sockOpen]).2 [Event.sockOpen]
      (List.prefix_refl _) (by decide)
  · exact (C1_recording_iff_assignment
      [Event.inbound 0 (RawInbound.msg ⟨some "abc", none, none⟩)]).1.mpr
      ⟨Event.inbound 0 (RawInbound.msg ⟨some "abc", none, none⟩),
        by simp, by decide⟩

/-- C2 (code bug): the source stops the microphone stream's tracks only
inside `mediaRecorder.onstop` (line 384).  On the normal user-stop path
the tracks are stopped; but on the transport-error path
(`socket.onerror`, lines 405-409) and on the reset path (`resetSession`,
lines 423-429) the session exits to `Idle` with the tracks never stopped
— the device handle leaks, contrary to the spec's requirement that the
microphone be released on every exit path. -/
theorem C2_mic_release_exit_paths :
    ((runSession [Event.sockOpen,
        Event.inbound 0 (RawInbound.msg ⟨some "abc", none, none⟩),
        Event.userStop]).tracksStopped = true) ∧
    ((runSession [Event.sockOpen,
        Event.inbound 0 (RawInbound.msg ⟨some "abc", none, none⟩),
        Event.sockError]).tracksStopped = false ∧
      (runSession [Event.sockOpen,
        Event.inbound 0 (RawInbound.msg ⟨some "abc", none, none⟩),
        Event.sockError]).recordingState = RecordingState.Idle) ∧
    ((runSession [Event.sockOpen,
        Event.inbound 0 (RawInbound.msg ⟨some "abc", none, none⟩),
        Event.reset]).tracksStopped = false ∧
      (runSession [Event.sockOpen,
        Event.inbound 0 (RawInbound.msg ⟨some "abc", none, none⟩),
        Event.reset]).recordingState = RecordingState.Idle) :=
  ⟨rfl, ⟨rfl, rfl⟩, ⟨rfl, rfl⟩⟩

/-- C3 counterexample: a malformed inbound frame is not ignored without
an error — `JSON.parse` (line 365) has no try/catch around it, so the
handler throws (modelled as `Except.error`). -/
theorem C3_malformed_throws :
    handleMessage initState 0 RawInbound.malformed = Except.error () := rfl

/-- C3 (amended): an inbound message that parses but is neither a
session assignment (truthy `session_id`) nor of type FILLER_WORD is
ignored: the handler returns with no error and no state change.  A
malformed frame, in contrast, makes the handler throw an uncaught
exception; the throw happens before any mutation, so the controller
state is still unchanged, and the exception is not fatal to the app. -/
theorem C3_unrecognized_ignored (st : ClientState) (now : Nat)
    (m : JsonMsg) (h1 : truthy m.session_id = false)
    (h2 : (m.type == some "FILLER_WORD") = false) :
    handleMessage st now (RawInbound.msg m) = Except.ok st ∧
    stepEvent st (Event.inbound now RawInbound.malformed) = st := by
  exact ⟨by simp [handleMessage, h1, h2], rfl⟩

theorem C3_unrecognized_ignored_witness :
    handleMessage initState 0 (RawInbound.msg ⟨none, some "PACE", none⟩) =
      Except.ok initState ∧
    stepEvent initState (Event.inbound 0 RawInbound.malformed) = initState :=
  C3_unrecognized_ignored initState 0 ⟨none, some "PACE", none⟩
    (by decide) (by decide)

/-- C4 counterexample: `ondataavailable` sends only when
`event.data.size > 0` (line 375); a capture callback delivering an empty
blob while the socket is OPEN fires but sends nothing, so the number of
chunks sent (0) differs from the number of capture callbacks fired while
the connection was open (1). -/
theorem C4_empty_blob_not_sent :
    (runSession [Event.sockOpen,
       Event.inbound 0 (RawInbound.msg ⟨some "abc", none, none⟩),
       Event.capture 0]).sentChunks = 0 ∧
    captureCallbacksWhileOpen initState
      [Event.sockOpen,
       Event.inbound 0 (RawInbound.msg ⟨some "abc", none, none⟩),
       Event.capture 0] = 1 := ⟨rfl, rfl⟩

/-- C4 (amended): over every trace, the number of chunks sent equals the
number of capture callbacks carrying non-empty data fired while the
connection was OPEN; a callback fired while the connection is not open
sends nothing, then or at any later event (no queueing). -/
theorem C4_sent_eq_open_nonempty_captures :
    (∀ (st : ClientState) (es : List Event),
      (foldEvents st es).sentChunks =
        st.sentChunks + sentWhileOpenNonEmpty st es) ∧
    (∀ (st : ClientState) (size : Nat),
      ¬ st.socketState = SocketState.OPEN →
      (stepEvent st (Event.capture size)).sentChunks = st.sentChunks) := by
  refine ⟨sentChunks_eq_spec, ?_⟩
  intro st size hop
  have hb : (st.socketState == SocketState.OPEN) = false := by
    simpa using hop
  have h := sent_step st (Event.capture size)
  simpa [hb] using h

theorem C4_sent_eq_open_nonempty_captures_witness :
    (stepEvent initState (Event.capture 5)).sentChunks =
      initState.sentChunks :=
  C4_sent_eq_open_nonempty_captures.2 initState 5 (by decide)

/-- C5 (code bug): the continuation of `fetchAnalysis` (lines 338-341)
applies its result unconditionally — there is no comparison against the
stored session identifier.  In the trace below a fetch for id "abc" is in
flight when `resetSession` runs (clearing the stored id and report); when
the result then arrives, the abandoned session's report is stored anyway
and the controller moves to `Complete`, instead of ignoring the stale
result. -/
theorem C5_stale_fetch_result_applied :
    ((runSession [Event.sockOpen,
        Event.inbound 0 (RawInbound.msg ⟨some "abc", none, none⟩),
        Event.userStop, Event.sockClose, Event.reset]).sessionId = none ∧
      (runSession [Event.sockOpen,
        Event.inbound 0 (RawInbound.msg ⟨some "abc", none, none⟩),
        Event.userStop, Event.sockClose, Event.reset]).fetches = ["abc"] ∧
      (runSession [Event.sockOpen,
        Event.inbound 0 (RawInbound.msg ⟨some "abc", none, none⟩),
        Event.userStop, Event.sockClose, Event.reset]).analysisReport
        = none) ∧
    ((runSession [Event.sockOpen,
        Event.inbound 0 (RawInbound.msg ⟨some "abc", none, none⟩),
        Event.userStop, Event.sockClose, Event.reset,
        Event.fetchResult true ⟨"report-body"⟩]).analysisReport =
        some ⟨"report-body"⟩ ∧
      (runSession [Event.sockOpen,
        Event.inbound 0 (RawInbound.msg ⟨some "abc", none, none⟩),
        Event.userStop, Event.sockClose, Event.reset,
        Event.fetchResult true ⟨"report-body"⟩]).recordingState =
        RecordingState.Complete) :=
  ⟨⟨rfl, rfl, rfl⟩, ⟨rfl, rfl⟩⟩

/-- C6: if the connection closes after a trace in which no message
carried a (truthy) session identifier, the controller ends in `Idle`
with the "could not get session ID" status and no report fetch was ever
issued. -/
theorem C6_close_before_assignment (es : List Event)
    (h : ∀ e ∈ es, isAssignment e = false) :
    (runSession (es ++ [Event.sockClose])).recordingState =
      RecordingState.Idle ∧
    (runSession (es ++ [Event.sockClose])).statusMessage =
      "Could not get session ID. Please try again." ∧
    (runSession (es ++ [Event.sockClose])).fetches = [] := by
  have hinv := noSessionYet_fold initState es init_noSessionYet h
  have hrw : runSession (es ++ [Event.sockClose]) =
      stepEvent (foldEvents initState es) Event.sockClose := by
    show foldEvents initState (es ++ [Event.sockClose]) = _
    rw [foldEvents_append]
    rfl
  rw [hrw]
  obtain ⟨h1, -, -, h4, -, -⟩ := hinv
  refine ⟨?_, ?_, ?_⟩ <;> simp [stepEvent, h1, h4]

theorem C6_close_before_assignment_witness :
    (runSession [Event.sockOpen, Event.sockClose]).recordingState =
      RecordingState.Idle ∧
    (runSession [Event.sockOpen, Event.sockClose]).statusMessage =
      "Could not get session ID. Please try again." ∧
    (runSession [Event.sockOpen, Event.sockClose]).fetches = [] :=
  C6_close_before_assignment [Event.sockOpen] (by decide)

/-- C7: a session whose trace contains exactly one connection-close
event, at a point where the stored session id is the non-empty `id`,
issues exactly one report fetch, keyed by `id`. -/
theorem C7_exactly_one_fetch (t1 t2 : List Event) (id : String)
    (hc1 : Event.sockClose ∉ t1) (hc2 : Event.sockClose ∉ t2)
    (hid : (runSession t1).sessionId = some id) (hne : id ≠ "") :
    (runSession (t1 ++ Event.sockClose :: t2)).fetches = [id] := by
  have h1 : (runSession t1).fetches = [] := fetches_fold initState t1 hc1
  have hrw : runSession (t1 ++ Event.sockClose :: t2) =
      foldEvents (stepEvent (runSession t1) Event.sockClose) t2 := by
    show foldEvents initState (t1 ++ Event.sockClose :: t2) = _
    rw [show t1 ++ Event.sockClose :: t2 =
        (t1 ++ [Event.sockClose]) ++ t2 by simp, foldEvents_append,
      foldEvents_append]
    rfl
  rw [hrw, fetches_fold _ t2 hc2, (close_step_with_id _ id hid hne).1, h1]
  rfl

theorem C7_exactly_one_fetch_witness :
    (runSession
      [Event.inbound 0 (RawInbound.msg ⟨some "abc", none, none⟩),
       Event.sockClose]).fetches = ["abc"] :=
  C7_exactly_one_fetch
    [Event.inbound 0 (RawInbound.msg ⟨some "abc", none, none⟩)] [] "abc"
    (by decide) (by decide) (by decide) (by decide)

/-- C8 counterexample: the handler's guard `if (data.session_id)`
(line 366) is not guarded on the id being unset, so a second message
carrying a session identifier overwrites the stored id (now "b", no
longer the first id "a") and creates and starts a second MediaRecorder. -/
theorem C8_second_assignment_overwrites :
    (runSession
      [Event.inbound 0 (RawInbound.msg ⟨some "a", none, none⟩),
       Event.inbound 1 (RawInbound.msg ⟨some "b", none, none⟩)]).sessionId
      = some "b" ∧
    (runSession
      [Event.inbound 0 (RawInbound.msg ⟨some "a", none, none⟩),
       Event.inbound 1 (RawInbound.msg ⟨some "b", none, none⟩)]
      ).recordersStarted = 2 := ⟨rfl, rfl⟩

/-- C8 (amended): if exactly one inbound message of the session carries a
(truthy) session identifier, then the stored id is set by that message
and never changed afterwards (absent a reset, which discards the
session), and exactly one recorder is created and started.  A later
assignment-shaped message, however, would overwrite the id and start
another recorder. -/
theorem C8_single_assignment_sets_once (t1 t2 : List Event) (now : Nat)
    (m : JsonMsg) (hm : truthy m.session_id = true)
    (h1 : ∀ e ∈ t1, isAssignment e = false)
    (h2 : ∀ e ∈ t2, isAssignment e = false)
    (hr : Event.reset ∉ t2) :
    (runSession (t1 ++ Event.inbound now (RawInbound.msg m) :: t2)
      ).sessionId = m.session_id ∧
    (runSession (t1 ++ Event.inbound now (RawInbound.msg m) :: t2)
      ).recordersStarted = 1 := by
  have hrw : runSession (t1 ++ Event.inbound now (RawInbound.msg m) :: t2) =
      foldEvents
        (stepEvent (runSession t1) (Event.inbound now (RawInbound.msg m)))
        t2 := by
    show foldEvents initState _ = _
    rw [show t1 ++ Event.inbound now (RawInbound.msg m) :: t2 =
        (t1 ++ [Event.inbound now (RawInbound.msg m)]) ++ t2 by simp,
      foldEvents_append, foldEvents_append]
    rfl
  have hinv := noSessionYet_fold initState t1 init_noSessionYet h1
  have hfold := sid_fold
    (stepEvent (runSession t1) (Event.inbound now (RawInbound.msg m)))
    t2 h2 hr
  rw [hrw]
  refine ⟨hfold.1.trans ?_, hfold.2.trans ?_⟩
  · rw [stepEvent_assign _ now m hm]
  · rw [stepEvent_assign _ now m hm]
    show (foldEvents initState t1).recordersStarted + 1 = 1
    rw [hinv.2.2.2.2.1]

theorem C8_single_assignment_sets_once_witness :
    (runSession [Event.inbound 0 (RawInbound.msg ⟨some "abc", none, none⟩)]
      ).sessionId = some "abc" ∧
    (runSession [Event.inbound 0 (RawInbound.msg ⟨some "abc", none, none⟩)]
      ).recordersStarted = 1 :=
  C8_single_assignment_sets_once [] [] 0 ⟨some "abc", none, none⟩
    (by decide) (by decide) (by decide) (by decide)

/-- C9 counterexample: `resetSession` run while the controller is in
`Idle` is not a no-op — after a transport error the controller sits in
`Idle` with the error status, and reset replaces that status with the
initial one (it likewise clears feedback and the stored id). -/
theorem C9_reset_from_idle_changes_status :
    (runSession [Event.sockError]).recordingState = RecordingState.Idle ∧
    (stepEvent (runSession [Event.sockError]) Event.reset).statusMessage ≠
      (runSession [Event.sockError]).statusMessage := ⟨rfl, by decide⟩

/-- C9 (amended): calling stop with no recorder, or with a recorder that
is no longer in the `recording` state, is a complete no-op.  Reset sends
no close signal to the connection and leaves the recording state `Idle`,
but it does rewrite the status message, report, feedback queue and
stored id to their initial values — a visible change when those
differ. -/
theorem C9_stop_noop_reset_no_close (st : ClientState)
    (h : st.recorder ≠ some true) :
    stepEvent st Event.userStop = st ∧
    (stepEvent st Event.reset).closeSignals = st.closeSignals ∧
    (stepEvent st Event.reset).recordingState = RecordingState.Idle := by
  refine ⟨?_, rfl, rfl⟩
  cases hr : st.recorder with
  | none => simp [stepEvent, hr]
  | some b =>
    cases b with
    | false => simp [stepEvent, hr]
    | true => exact absurd hr h

theorem C9_stop_noop_reset_no_close_witness :
    stepEvent (runSession [Event.sockError]) Event.userStop =
      runSession [Event.sockError] ∧
    (stepEvent (runSession [Event.sockError]) Event.reset).closeSignals =
      (runSession [Event.sockError]).closeSignals ∧
    (stepEvent (runSession [Event.sockError]) Event.reset).recordingState =
      RecordingState.Idle :=
  C9_stop_noop_reset_no_close (runSession [Event.sockError]) (by decide)

/-- C10: inline notices leave the queue strictly FIFO, one head drop per
timer firing, and the single 5-second timer is re-armed (old timeout
cleared, new one set) on every queue change; hence an addition less than
5 seconds after the last queue change postpones the head's removal, so a
notice can stay displayed longer than 5 seconds.  Concretely: notice "A"
added at t=0, "B" at t=3000; the pending deadline is then 8000, nothing
fires at 5000, and "A" is removed only at t=8000 — displayed 8000 ms. -/
theorem C10_feedback_fifo_and_postponement :
    (∀ (s : FbState) (now : Nat), s.timer = some now →
      (fbFire now s).queue = s.queue.drop 1 ∧
      (fbFire now s).timer = rearmTimer now (s.queue.drop 1)) ∧
    (∀ (s : FbState) (now : Nat) (text : String),
      (fbAdd now text s).timer = some (now + 5000)) ∧
    ((fbAdd 3000 "B" (fbAdd 0 "A" fbInit)).timer = some 8000 ∧
      fbFire 5000 (fbAdd 3000 "B" (fbAdd 0 "A" fbInit)) =
        fbAdd 3000 "B" (fbAdd 0 "A" fbInit) ∧
      (fbFire 8000 (fbAdd 3000 "B" (fbAdd 0 "A" fbInit))).queue =
        [⟨3000, "B"⟩] ∧
      8000 - 0 > 5000) := by
  refine ⟨?_, ?_, by decide, by decide, by decide, by decide⟩
  · intro s now h
    constructor <;> simp [fbFire, h]
  · intro s now text
    simp [fbAdd, rearmTimer]

theorem C10_feedback_fifo_and_postponement_witness :
    (fbFire 5000 (fbAdd 0 "A" fbInit)).queue = [] :=
  ((C10_feedback_fifo_and_postponement.1 (fbAdd 0 "A" fbInit) 5000
    (by decide)).1).trans (by decide)
